import Mathlib

/-!
Verification of the tenant-context-and-schema-routing core of a multi-tenant
web backend.  The Python source is embedded shallowly: pure string
manipulation becomes Lean functions on `String`/`List Char`; the request
middleware and the schema-lifecycle operations become functions that thread
the context slot and the storage-engine state explicitly and additionally
return a trace of the effects they perform, so that the ordering properties
of the specification (set before call, clear afterwards, no engine command
before validation) are visible in the embedding.
-/

set_option autoImplicit false

deriving instance DecidableEq for Except

namespace Tenant

/-! ## Python string primitives used by the source -/

/-- Classification of the non-ASCII Latin-1 code points (U+0080 to U+00FF) that
Python `str.isalnum` counts as alphanumeric: the feminine and masculine ordinal
indicators, the superscript digits, micro sign, the vulgar fractions, and the
Latin-1 letters (everything in U+00C0 to U+00FF except multiplication and
division signs). -/
def pyLatin1ExtraAlnum (n : Nat) : Bool :=
  n == 0xAA || n == 0xB2 || n == 0xB3 || n == 0xB5 || n == 0xB9 || n == 0xBA ||
  n == 0xBC || n == 0xBD || n == 0xBE ||
  decide (0xC0 ≤ n ∧ n ≤ 0xD6) || decide (0xD8 ≤ n ∧ n ≤ 0xF6) ||
  decide (0xF8 ≤ n ∧ n ≤ 0xFF)

/-- Python `str.isalnum` on a single character.  Exact on the Basic Latin and
Latin-1 blocks; code points above U+00FF (some of which Python also counts as
alphanumeric, e.g. Greek letters) are classified as non-alphanumeric here, so
theorems whose truth depends on the classification of individual characters
quantify only over Latin-1 strings or use concrete Latin-1 inputs. -/
def pyCharIsAlnum (c : Char) : Bool :=
  c.isAlphanum || pyLatin1ExtraAlnum c.toNat

/-- Python `s.isalnum()`: true iff `s` is nonempty and every character is
alphanumeric. -/
def pyIsAlnum (s : List Char) : Bool :=
  !s.isEmpty && s.all pyCharIsAlnum

/-- Python `s.replace("_", "")`: removes every underscore. -/
def pyStripUnderscores (s : List Char) : List Char :=
  s.filter (fun c => c != '_')

/-- The format check `tenant_id.replace("_", "").isalnum()` shared verbatim by
`TenantMiddleware.dispatch`, `create_tenant_schema` and `drop_tenant_schema`. -/
def tenantFormatOk (s : String) : Bool :=
  pyIsAlnum (pyStripUnderscores s.data)

/-- Python truthiness test `if not x` on an optional string: `None` and the
empty string are falsy. -/
def pyFalsy : Option String → Bool
  | none => true
  | some s => s == ""

/-- Substring test on character lists (Python `in` for strings), used to state
side conditions about occurrences of the namespace naming pattern. -/
def containsSeq (pat : List Char) : List Char → Bool
  | [] => pat.isEmpty
  | c :: rest => pat.isPrefixOf (c :: rest) || containsSeq pat rest

/-- The single-quote character, kept out of string literals. -/
def sq : String := String.singleton (Char.ofNat 39)

/-! ## Tenant context store (`tenant_context.py`)

`_tenant_id_context` is a `ContextVar`: one logical slot per execution
context.  Within one request the slot is a single mutable cell, modelled as
`Ctx` and threaded explicitly; the cross-request view (one slot per task) is
modelled further below for the isolation property. -/

/-- The context slot of one execution context: the current tenant id, or
`none` when unset. -/
abbrev Ctx := Option String

/-! ## Tenant resolution middleware (`tenant_middleware.py`) -/

/-- An inbound HTTP request, restricted to the fields the middleware reads:
the URL path, the `x-tenant-id` header value and the `tenantId` query
parameter value (each `none` when absent). -/
structure Request where
  path : String
  headerTenant : Option String
  queryTenant : Option String
  deriving DecidableEq, Repr

/-- `TenantMiddleware.EXCLUDED_PATHS`. -/
def EXCLUDED_PATHS : List String :=
  ["/docs", "/redoc", "/openapi.json", "/health", "/metrics"]

/-- `any(request.url.path.startswith(path) for path in self.EXCLUDED_PATHS)`. -/
def pathExcluded (p : String) : Bool :=
  EXCLUDED_PATHS.any (fun e => e.data.isPrefixOf p.data)

/-- Steps 2-3 of the middleware: read the header, fall back to the query
parameter when the header is missing or empty, and treat a still-falsy result
as absent. -/
def resolveTenant (r : Request) : Option String :=
  let t := if pyFalsy r.headerTenant then r.queryTenant else r.headerTenant
  if pyFalsy t then none else t

/-- An HTTP response as far as the middleware builds one: a status code and
the `detail` field of the JSON body (the only body field the code emits). -/
structure HttpResponse where
  status : Nat
  detail : String
  deriving DecidableEq, Repr

/-- The `detail` string of the 400 response for a missing tenant id. -/
def missingTenantDetail : String :=
  "Tenant ID is required. Provide it via " ++ sq ++ "x-tenant-id" ++ sq ++
  " header or " ++ sq ++ "tenantId" ++ sq ++ " query parameter."

/-- The `detail` string of the 400 response for a malformed tenant id. -/
def invalidTenantDetail : String :=
  "Invalid tenant ID format. Only alphanumeric characters and underscores are allowed."

/-- Observable effects of one `dispatch` run: context-store writes and the
invocation of the downstream handler. -/
inductive Ev where
  | setCtx (t : String)
  | clearCtx
  | callNext
  deriving DecidableEq, Repr

/-- Does the event write a value into the context store? -/
def Ev.isSet : Ev → Bool
  | Ev.setCtx _ => true
  | _ => false

/-- Does the event clear the context store? -/
def Ev.isClear : Ev → Bool
  | Ev.clearCtx => true
  | _ => false

/-- The downstream handler chain (`call_next`): it runs in the current
context, may itself read or write the context slot, and either returns a
response or lets an exception propagate. -/
abbrev Handler := Ctx → Except String HttpResponse × Ctx

/-- `TenantMiddleware.dispatch`.  Returns the outcome (a response, or an
exception propagating out of the downstream handler), the final value of the
context slot, and the trace of effects.  The `try/finally` of the source is
embedded by clearing the slot on both the normal and the exceptional outcome
of `call_next`. -/
def dispatch (r : Request) (next : Handler) (ctx : Ctx) :
    Except String HttpResponse × Ctx × List Ev :=
  if pathExcluded r.path then
    ((next ctx).1, (next ctx).2, [Ev.callNext])
  else
    match resolveTenant r with
    | none => (Except.ok ⟨400, missingTenantDetail⟩, ctx, [])
    | some t =>
      if tenantFormatOk t then
        ((next (some t)).1, none, [Ev.setCtx t, Ev.callNext, Ev.clearCtx])
      else
        (Except.ok ⟨400, invalidTenantDetail⟩, ctx, [])

/-- The identifier pattern of the specification, written from the spec words
(not from the code) for comparison with the code check: a match of the regular
expression anchored on `[A-Za-z0-9_]` repeated 1 to 50 times. -/
def specTenantPattern (s : String) : Bool :=
  decide (1 ≤ s.data.length) && decide (s.data.length ≤ 50) &&
  s.data.all (fun c => c.isAlphanum || c == '_')

/-! ## Schema lifecycle manager (`database.py`)

The storage engine is modelled as the set of its schemas, each a name plus
the list of tables it contains.  Each operation returns its result, the
resulting engine state, and the list of SQL commands it issued, so that
"rejected before any storage engine call" is directly expressible. -/

/-- One schema (namespace) of the storage engine. -/
structure SchemaRec where
  name : String
  tables : List String
  deriving DecidableEq, Repr

/-- The storage-engine state: its schema catalog, in catalog order. -/
structure DbState where
  schemas : List SchemaRec
  deriving DecidableEq, Repr

/-- The SQL commands the lifecycle operations issue. -/
inductive SqlCmd where
  | createSchemaIfAbsent (n : String)
  | setSearchPath (n : String)
  | createAllTables
  | dropSchemaIfExists (n : String) (cascade : Bool)
  deriving DecidableEq, Repr

/-- The application table set of `Base.metadata`: the two entity tables (named
by the lower-cased class names) and the compliance tables. -/
def appTables : List String :=
  ["account", "notification", "audit_logs", "user_consents",
   "data_processing_logs", "data_subject_requests",
   "data_retention_records", "encryption_keys"]

/-- `Base.metadata.create_all`: create each application table that is not
already present (per-table `IF NOT EXISTS` behaviour of the ORM). -/
def ensureTables (ts : List String) : List String :=
  ts ++ appTables.filter (fun t => !ts.contains t)

/-- Does the catalog contain a schema with the given name? -/
def hasSchema (db : DbState) (n : String) : Bool :=
  db.schemas.any (fun s => s.name == n)

/-- `CREATE SCHEMA IF NOT EXISTS n`. -/
def execCreateSchema (db : DbState) (n : String) : DbState :=
  if hasSchema db n then db else ⟨db.schemas ++ [⟨n, []⟩]⟩

/-- `Base.metadata.create_all` run with the search path pointing at `n`. -/
def execCreateTables (db : DbState) (n : String) : DbState :=
  ⟨db.schemas.map (fun s => if s.name == n then ⟨s.name, ensureTables s.tables⟩ else s)⟩

/-- `create_tenant_schema(tenant_id)`: validate the identifier, then create
the schema if absent, point the search path at it and create all tables. -/
def create_tenant_schema (db : DbState) (t : String) :
    Except String Unit × DbState × List SqlCmd :=
  if tenantFormatOk t then
    let n := "tenant_" ++ t
    (Except.ok (), execCreateTables (execCreateSchema db n) n,
      [SqlCmd.createSchemaIfAbsent n, SqlCmd.setSearchPath n, SqlCmd.createAllTables])
  else
    (Except.error "Invalid tenant ID format", db, [])

/-- `drop_tenant_schema(tenant_id, cascade)`: validate the identifier, then
issue `DROP SCHEMA IF EXISTS ... CASCADE|RESTRICT`.  The engine removes every
schema of that name; in `RESTRICT` mode it refuses when the schema still
contains objects. -/
def drop_tenant_schema (db : DbState) (t : String) (cascade : Bool) :
    Except String Unit × DbState × List SqlCmd :=
  if tenantFormatOk t then
    let n := "tenant_" ++ t
    if !cascade && db.schemas.any (fun s => s.name == n && !s.tables.isEmpty) then
      (Except.error "cannot drop schema: it contains objects", db,
        [SqlCmd.dropSchemaIfExists n cascade])
    else
      (Except.ok (), ⟨db.schemas.filter (fun s => s.name != n)⟩,
        [SqlCmd.dropSchemaIfExists n cascade])
  else
    (Except.error "Invalid tenant ID format", db, [])

/-- The characters of the naming pattern `tenant_`. -/
def tenantPat : List Char := ['t', 'e', 'n', 'a', 'n', 't', '_']

/-- The SQL pattern `tenant\_%` of `list_tenant_schemas` where the underscore
is the LIKE single-character wildcard: six literal characters `tenant`, one
arbitrary character, then anything. -/
def likeTenantPat (n : String) : Bool :=
  ("tenant".data.isPrefixOf n.data) && decide (7 ≤ n.data.length)

/-- Python `schema.replace("tenant_", "")`: remove every (non-overlapping,
left-to-right) occurrence of `tenant_`, not only a leading one. -/
def stripTenantAll : List Char → List Char
  | 't' :: 'e' :: 'n' :: 'a' :: 'n' :: 't' :: '_' :: rest => stripTenantAll rest
  | c :: rest => c :: stripTenantAll rest
  | [] => []

/-- `list_tenant_schemas()`: select the catalog names matching
`LIKE tenant\_%`, strip the `tenant_` occurrences, return the bare ids. -/
def list_tenant_schemas (db : DbState) : List String :=
  ((db.schemas.map SchemaRec.name).filter likeTenantPat).map
    (fun n => String.mk (stripTenantAll n.data))

/-! ## Scoped connection provider (`get_db`) -/

/-- The operations `get_db` performs against the engine. -/
inductive DbOp where
  | openSession
  | setSearchPathTo (schemas : List String)
  | closeSession
  deriving DecidableEq, Repr

/-- A database session as `get_db` configures it: the schema search path its
unqualified names resolve against, in order. -/
structure Session where
  searchPath : List String
  deriving DecidableEq, Repr

/-- The `ValueError` message of `get_db` when no tenant is bound. -/
def missingCtxMsg : String :=
  "Tenant ID not found in context. Ensure TenantMiddleware is properly configured."

/-- `get_db()`: read the context slot; fail when it is falsy (unset or empty)
before touching the engine, otherwise open a session and set its search path
to the tenant schema followed by `public`. -/
def get_db (ctx : Ctx) : Except String Session × List DbOp :=
  if pyFalsy ctx then
    (Except.error missingCtxMsg, [])
  else
    match ctx with
    | none => (Except.error missingCtxMsg, [])
    | some t =>
      (Except.ok ⟨["tenant_" ++ t, "public"]⟩,
        [DbOp.openSession, DbOp.setSearchPathTo ["tenant_" ++ t, "public"],
         DbOp.closeSession])

/-! ## Administrative endpoint (`tenant_endpoints.py`) -/

/-- The response of the delete endpoint: HTTP status plus the fields of the
body it builds (`TenantResponse` on success, the `detail` message on error). -/
structure EndpointResp where
  status : Nat
  body : String
  deriving DecidableEq, Repr

/-- `delete_tenant(tenant_id)`: drop with cascade; on success answer 200 with
the success message, on any exception answer 500. -/
def delete_tenant (db : DbState) (t : String) : EndpointResp × DbState :=
  match drop_tenant_schema db t true with
  | (Except.ok _, db2, _) =>
    (⟨200, "Tenant " ++ sq ++ t ++ sq ++ " deleted successfully"⟩, db2)
  | (Except.error e, db2, _) =>
    (⟨500, "Failed to delete tenant: " ++ e⟩, db2)

/-! ## Context store isolation (`ContextVar` semantics)

`_tenant_id_context` is a `ContextVar`, i.e. execution-context-local storage:
each concurrent request/task owns one logical slot.  The cross-task view is a
map from task to slot; `set_tenant_id`/`clear_tenant_id`/`get_tenant_id`
act on the calling task's slot only. -/

/-- The cross-task view of the context store: one slot per execution
context. -/
def CtxStore := Nat → Option String

/-- The `ContextVar` default: every slot starts unset. -/
def ctxStoreInit : CtxStore := fun _ => none

/-- One context-store operation as performed by `TenantContext`. -/
inductive CtxOp where
  | setOp (v : String)
  | clearOp
  deriving DecidableEq, Repr

/-- The slot value an operation writes: `set_tenant_id` stores the id,
`clear_tenant_id` stores `None`. -/
def CtxOp.written : CtxOp → Option String
  | CtxOp.setOp v => some v
  | CtxOp.clearOp => none

/-- Execute one operation in the execution context `tid`: only that task's
slot changes. -/
def applyOp (s : CtxStore) (tid : Nat) (op : CtxOp) : CtxStore :=
  fun t => if t = tid then op.written else s t

/-- `TenantContext.get_tenant_id` as seen from execution context `tid`. -/
def get_tenant_id (s : CtxStore) (tid : Nat) : Option String := s tid

/-- Run an arbitrary interleaving of context operations, each tagged with the
execution context performing it. -/
def runTrace (s : CtxStore) : List (Nat × CtxOp) → CtxStore
  | [] => s
  | (tid, op) :: rest => runTrace (applyOp s tid op) rest

/-- The value determined by the operations of task `tid` alone: its last
write, or `init` when it never wrote. -/
def lastWrite (init : Option String) (tid : Nat) : List (Nat × CtxOp) → Option String
  | [] => init
  | (tid2, op) :: rest =>
    lastWrite (if tid2 = tid then op.written else init) tid rest

/-- `TenantContext.set_tenant_id` performed in execution context `tid`. -/
def set_tenant_id (s : CtxStore) (tid : Nat) (v : String) : CtxStore :=
  applyOp s tid (CtxOp.setOp v)

/-- `TenantContext.clear_tenant_id` performed in execution context `tid`. -/
def clear_tenant_id (s : CtxStore) (tid : Nat) : CtxStore :=
  applyOp s tid CtxOp.clearOp

/-! ## Helper lemmas about the format check -/

/-- An identifier drawn from `[A-Za-z0-9_]` that is not all underscores passes
the code's format check. -/
theorem tenantFormatOk_of_specPattern (t : String)
    (hspec : specTenantPattern t = true) (hne : ∃ c ∈ t.data, c ≠ '_') :
    tenantFormatOk t = true := by
  obtain ⟨c, hc, hcu⟩ := hne
  unfold specTenantPattern at hspec
  simp only [Bool.and_eq_true, decide_eq_true_eq, List.all_eq_true] at hspec
  obtain ⟨-, hall⟩ := hspec
  unfold tenantFormatOk pyIsAlnum pyStripUnderscores
  have hmem : c ∈ t.data.filter (fun c => c != '_') := by
    simp only [List.mem_filter, bne_iff_ne, ne_eq]
    exact ⟨hc, hcu⟩
  rw [Bool.and_eq_true]
  refine ⟨?_, ?_⟩
  · have hnil : t.data.filter (fun c => c != '_') ≠ [] := List.ne_nil_of_mem hmem
    simpa [List.isEmpty_iff] using hnil
  · refine List.all_eq_true.mpr ?_
    intro d hd
    obtain ⟨hd1, hd2⟩ := List.mem_filter.mp hd
    have hclass := hall d hd1
    have hdu : d ≠ '_' := by simpa [bne_iff_ne] using hd2
    rw [Bool.or_eq_true] at hclass
    rcases hclass with ha | he
    · simp [pyCharIsAlnum, ha]
    · exact absurd (by simpa using he) hdu

/-- An identifier containing a character that is neither Python-alphanumeric
nor an underscore fails the code's format check. -/
theorem tenantFormatOk_eq_false_of_bad (t : String)
    (hbad : ∃ c ∈ t.data, pyCharIsAlnum c = false ∧ c ≠ '_') :
    tenantFormatOk t = false := by
  obtain ⟨c, hc, hca, hcu⟩ := hbad
  unfold tenantFormatOk pyIsAlnum pyStripUnderscores
  have hmem : c ∈ t.data.filter (fun c => c != '_') := by
    simp only [List.mem_filter, bne_iff_ne, ne_eq]
    exact ⟨hc, hcu⟩
  have hallf : (t.data.filter (fun c => c != '_')).all pyCharIsAlnum = false := by
    refine Bool.eq_false_iff.mpr ?_
    intro hall
    have := List.all_eq_true.mp hall c hmem
    rw [hca] at this
    cases this
  simp [hallf]

/-! ## Claim theorems: middleware -/

/-- Claim C1: for every request that reaches the set-context step (path not
allow-listed, a tenant identifier resolved from header or query, format check
passed), `dispatch` performs exactly one context set and exactly one context
clear, and the Context Store is unset after the request completes — whether
the downstream handler returns normally or lets an exception propagate. -/
theorem dispatch_context_bracketing (r : Request) (next : Handler) (ctx : Ctx) (t : String)
    (hex : pathExcluded r.path = false) (hres : resolveTenant r = some t)
    (hfmt : tenantFormatOk t = true) :
    ((dispatch r next ctx).2.2.filter Ev.isSet).length = 1 ∧
    ((dispatch r next ctx).2.2.filter Ev.isClear).length = 1 ∧
    (dispatch r next ctx).2.1 = none := by
  simp [dispatch, hex, hres, hfmt, List.filter, Ev.isSet, Ev.isClear]

/-- Witness for C1: a concrete request whose downstream handler raises; the
trace still holds one set, one clear, and the slot ends unset. -/
theorem dispatch_context_bracketing_witness :
    pathExcluded "/api/v1/accounts" = false ∧
    resolveTenant ⟨"/api/v1/accounts", some "acme", none⟩ = some "acme" ∧
    tenantFormatOk "acme" = true ∧
    (((dispatch ⟨"/api/v1/accounts", some "acme", none⟩
        (fun c => (Except.error "boom", c)) none).2.2.filter Ev.isSet).length = 1 ∧
     ((dispatch ⟨"/api/v1/accounts", some "acme", none⟩
        (fun c => (Except.error "boom", c)) none).2.2.filter Ev.isClear).length = 1 ∧
     (dispatch ⟨"/api/v1/accounts", some "acme", none⟩
        (fun c => (Except.error "boom", c)) none).2.1 = none) :=
  ⟨by decide, by decide, by decide,
   dispatch_context_bracketing ⟨"/api/v1/accounts", some "acme", none⟩
     (fun c => (Except.error "boom", c)) none "acme" (by decide) (by decide) (by decide)⟩

/-- Claim C7: a request to a non-allow-listed path with neither tenant source
(header and query both absent or empty) gets a 400 response whose body names
both accepted sources; the downstream handler is not invoked (empty effect
trace) and the Context Store is left exactly as it was. -/
theorem dispatch_missing_tenant_400 (r : Request) (next : Handler) (ctx : Ctx)
    (hex : pathExcluded r.path = false)
    (hh : pyFalsy r.headerTenant = true) (hq : pyFalsy r.queryTenant = true) :
    dispatch r next ctx = (Except.ok ⟨400, missingTenantDetail⟩, ctx, []) ∧
    containsSeq "x-tenant-id".data missingTenantDetail.data = true ∧
    containsSeq "tenantId".data missingTenantDetail.data = true := by
  have hres : resolveTenant r = none := by
    simp [resolveTenant, hh, hq]
  exact ⟨by simp [dispatch, hex, hres], by decide, by decide⟩

/-- Witness for C7: a concrete request with no header and no query tenant. -/
theorem dispatch_missing_tenant_400_witness :
    pathExcluded "/api/v1/accounts" = false ∧
    pyFalsy (none : Option String) = true ∧
    (dispatch ⟨"/api/v1/accounts", none, none⟩
        (fun c => (Except.ok ⟨200, "ok"⟩, c)) none
      = (Except.ok ⟨400, missingTenantDetail⟩, none, []) ∧
     containsSeq "x-tenant-id".data missingTenantDetail.data = true ∧
     containsSeq "tenantId".data missingTenantDetail.data = true) :=
  ⟨by decide, by decide,
   dispatch_missing_tenant_400 ⟨"/api/v1/accounts", none, none⟩
     (fun c => (Except.ok ⟨200, "ok"⟩, c)) none (by decide) (by decide) (by decide)⟩

/-- Claim C2 counterexample: the identifier consisting of a single underscore
matches the spec pattern `[A-Za-z0-9_]` of length 1 to 50, yet `dispatch`
rejects it with a 400 format error and never sets the Context Store: Python's
`"_".replace("_", "").isalnum()` is false because the empty string is not
alphanumeric. -/
theorem underscore_id_rejected :
    specTenantPattern "_" = true ∧
    dispatch ⟨"/api/v1/accounts", some "_", none⟩
        (fun c => (Except.ok ⟨200, "ok"⟩, c)) none
      = (Except.ok ⟨400, invalidTenantDetail⟩, none, []) :=
  ⟨by decide, by decide⟩

/-- Claim C2 (amended): every identifier matching the spec pattern that also
contains at least one non-underscore character is accepted — `dispatch` sets
the Context Store to exactly that string, runs the downstream handler in it,
and clears afterwards. -/
theorem dispatch_accepts_valid_tenant (r : Request) (next : Handler) (ctx : Ctx) (t : String)
    (hex : pathExcluded r.path = false) (hres : resolveTenant r = some t)
    (hspec : specTenantPattern t = true) (hne : ∃ c ∈ t.data, c ≠ '_') :
    dispatch r next ctx
      = ((next (some t)).1, none, [Ev.setCtx t, Ev.callNext, Ev.clearCtx]) := by
  have hfmt := tenantFormatOk_of_specPattern t hspec hne
  simp [dispatch, hex, hres, hfmt]

/-- Witness for amended C2: a conforming identifier supplied via the query
parameter is accepted and bound. -/
theorem dispatch_accepts_valid_tenant_witness :
    pathExcluded "/api/v1/accounts" = false ∧
    resolveTenant ⟨"/api/v1/accounts", none, some "acme_corp"⟩ = some "acme_corp" ∧
    specTenantPattern "acme_corp" = true ∧
    dispatch ⟨"/api/v1/accounts", none, some "acme_corp"⟩
        (fun c => (Except.ok ⟨200, "ok"⟩, c)) none
      = (Except.ok ⟨200, "ok"⟩, none,
         [Ev.setCtx "acme_corp", Ev.callNext, Ev.clearCtx]) :=
  ⟨by decide, by decide, by decide,
   dispatch_accepts_valid_tenant ⟨"/api/v1/accounts", none, some "acme_corp"⟩
     (fun c => (Except.ok ⟨200, "ok"⟩, c)) none "acme_corp"
     (by decide) (by decide) (by decide) ⟨'a', by decide⟩⟩

/-- Claim C3 counterexample: every character of the identifier below is
outside `[A-Za-z0-9_]` or inside it, and one (the accented vowel) is outside,
yet `dispatch` accepts the identifier and binds the context to it, because
Python's Unicode-aware `isalnum` counts the accented vowel as alphanumeric. -/
theorem unicode_id_accepted :
    (∃ c ∈ ("café" : String).data, (c.isAlphanum || c == '_') = false) ∧
    dispatch ⟨"/api/v1/accounts", some "café", none⟩
        (fun c => (Except.ok ⟨200, "ok"⟩, c)) none
      = (Except.ok ⟨200, "ok"⟩, none, [Ev.setCtx "café", Ev.callNext, Ev.clearCtx]) :=
  ⟨by decide, by decide⟩

/-- Claim C3 (amended): an identifier containing a character that is neither
Python-alphanumeric nor an underscore is rejected with the 400 format error;
the downstream handler is not invoked and the Context Store is untouched. -/
theorem dispatch_rejects_nonalnum (r : Request) (next : Handler) (ctx : Ctx) (t : String)
    (hex : pathExcluded r.path = false) (hres : resolveTenant r = some t)
    (hbad : ∃ c ∈ t.data, pyCharIsAlnum c = false ∧ c ≠ '_') :
    dispatch r next ctx = (Except.ok ⟨400, invalidTenantDetail⟩, ctx, []) := by
  have hfmt := tenantFormatOk_eq_false_of_bad t hbad
  simp [dispatch, hex, hres, hfmt]

/-- Witness for amended C3: an identifier with a hyphen is rejected. -/
theorem dispatch_rejects_nonalnum_witness :
    pathExcluded "/api/v1/accounts" = false ∧
    resolveTenant ⟨"/api/v1/accounts", some "acme-corp", none⟩ = some "acme-corp" ∧
    dispatch ⟨"/api/v1/accounts", some "acme-corp", none⟩
        (fun c => (Except.ok ⟨200, "ok"⟩, c)) none
      = (Except.ok ⟨400, invalidTenantDetail⟩, none, []) :=
  ⟨by decide, by decide,
   dispatch_rejects_nonalnum ⟨"/api/v1/accounts", some "acme-corp", none⟩
     (fun c => (Except.ok ⟨200, "ok"⟩, c)) none "acme-corp"
     (by decide) (by decide) ⟨'-', by decide⟩⟩

/-! ## Claim theorems: schema lifecycle and connection provider -/

/-- Claim C4 counterexample: a 51-character identifier violates the spec's
1-to-50-length constraint, yet both lifecycle operations succeed and the
create issues engine commands — the code checks the character class only and
never the length. -/
theorem long_id_not_rejected :
    specTenantPattern (String.mk (List.replicate 51 'a')) = false ∧
    (create_tenant_schema ⟨[]⟩ (String.mk (List.replicate 51 'a'))).1 = Except.ok () ∧
    (create_tenant_schema ⟨[]⟩ (String.mk (List.replicate 51 'a'))).2.2 ≠ [] ∧
    (drop_tenant_schema ⟨[]⟩ (String.mk (List.replicate 51 'a')) true).1 = Except.ok () :=
  ⟨by decide, by decide, by decide, by decide⟩

/-- Claim C4 (amended): an identifier failing the code's character-class check
(after removing underscores it is empty or holds a character Python does not
count as alphanumeric) makes `create_tenant_schema` and `drop_tenant_schema`
fail with the invalid-identifier error before issuing any engine command,
leaving the storage state unchanged; identifier length is not checked. -/
theorem lifecycle_rejects_bad_format (db : DbState) (t : String) (c : Bool)
    (hbad : tenantFormatOk t = false) :
    create_tenant_schema db t = (Except.error "Invalid tenant ID format", db, []) ∧
    drop_tenant_schema db t c = (Except.error "Invalid tenant ID format", db, []) := by
  constructor <;> simp [create_tenant_schema, drop_tenant_schema, hbad]

/-- Witness for amended C4: a hyphenated identifier is rejected by both
operations with the catalog untouched and no command issued. -/
theorem lifecycle_rejects_bad_format_witness :
    tenantFormatOk "bad-id" = false ∧
    (create_tenant_schema ⟨[⟨"public", []⟩]⟩ "bad-id"
        = (Except.error "Invalid tenant ID format", ⟨[⟨"public", []⟩]⟩, []) ∧
     drop_tenant_schema ⟨[⟨"public", []⟩]⟩ "bad-id" true
        = (Except.error "Invalid tenant ID format", ⟨[⟨"public", []⟩]⟩, [])) :=
  ⟨by decide, lifecycle_rejects_bad_format ⟨[⟨"public", []⟩]⟩ "bad-id" true (by decide)⟩

/-- Claim C6: with the Context Store unset (or holding the falsy empty
string), `get_db` fails synchronously with the missing-context error before
any engine operation — no connection is opened and there is no fallback to a
default namespace; with an identifier `t` bound, the session it yields
resolves unqualified names against `tenant_t` first and `public` second. -/
theorem get_db_scoping (t : String) (ht : t ≠ "") :
    get_db none = (Except.error missingCtxMsg, []) ∧
    get_db (some t)
      = (Except.ok ⟨["tenant_" ++ t, "public"]⟩,
         [DbOp.openSession, DbOp.setSearchPathTo ["tenant_" ++ t, "public"],
          DbOp.closeSession]) := by
  refine ⟨rfl, ?_⟩
  have hfal : pyFalsy (some t) = false := by
    simp [pyFalsy, ht]
  simp [get_db, hfal]

/-- Witness for C6 at a concrete identifier. -/
theorem get_db_scoping_witness :
    ("acme" : String) ≠ "" ∧
    (get_db none = (Except.error missingCtxMsg, []) ∧
     get_db (some "acme")
      = (Except.ok ⟨["tenant_acme", "public"]⟩,
         [DbOp.openSession, DbOp.setSearchPathTo ["tenant_acme", "public"],
          DbOp.closeSession])) :=
  ⟨by decide, get_db_scoping "acme" (by decide)⟩

/-- Claim C9: context isolation.  After any interleaved trace of context
operations by concurrent execution contexts, what a context reads from the
store is determined by its own operations alone — its last write, or the
initial value of its slot when it never wrote.  In particular no context ever
observes another context's value. -/
theorem context_isolation (trace : List (Nat × CtxOp)) (s : CtxStore) (tid : Nat) :
    get_tenant_id (runTrace s trace) tid = lastWrite (s tid) tid trace := by
  induction trace generalizing s with
  | nil => rfl
  | cons e rest ih =>
    obtain ⟨tid2, op⟩ := e
    simp only [runTrace, lastWrite]
    rw [ih]
    have happ : applyOp s tid2 op tid = if tid2 = tid then op.written else s tid := by
      by_cases h : tid = tid2
      · subst h
        simp [applyOp]
      · simp [applyOp, h, Ne.symm h]
    rw [happ]

/-- Claim C10: dropping the namespace of a tenant that was never created
succeeds — the DROP carries IF EXISTS, so it is a no-op on the catalog — and
the DELETE endpoint consequently answers 200 with the success message. -/
theorem drop_missing_schema_ok (db : DbState) (t : String)
    (hval : tenantFormatOk t = true)
    (habs : hasSchema db ("tenant_" ++ t) = false) :
    drop_tenant_schema db t true
      = (Except.ok (), db, [SqlCmd.dropSchemaIfExists ("tenant_" ++ t) true]) ∧
    delete_tenant db t
      = (⟨200, "Tenant " ++ sq ++ t ++ sq ++ " deleted successfully"⟩, db) := by
  have hkeep : db.schemas.filter (fun s => s.name != ("tenant_" ++ t)) = db.schemas := by
    refine List.filter_eq_self.mpr ?_
    intro s hs
    rw [bne_iff_ne, ne_eq]
    intro heq
    have hany : db.schemas.any (fun s2 => s2.name == "tenant_" ++ t) = true :=
      List.any_eq_true.mpr ⟨s, hs, by simp [heq]⟩
    rw [hasSchema, hany] at habs
    cases habs
  have hdrop : drop_tenant_schema db t true
      = (Except.ok (), db, [SqlCmd.dropSchemaIfExists ("tenant_" ++ t) true]) := by
    simp [drop_tenant_schema, hval, hkeep]
  refine ⟨hdrop, ?_⟩
  simp [delete_tenant, hdrop]

/-- Witness for C10 on an empty catalog and a tenant never created. -/
theorem drop_missing_schema_ok_witness :
    tenantFormatOk "ghost" = true ∧
    hasSchema ⟨[]⟩ ("tenant_" ++ "ghost") = false ∧
    (drop_tenant_schema ⟨[]⟩ "ghost" true
      = (Except.ok (), ⟨[]⟩, [SqlCmd.dropSchemaIfExists ("tenant_" ++ "ghost") true]) ∧
     delete_tenant ⟨[]⟩ "ghost"
      = (⟨200, "Tenant " ++ sq ++ "ghost" ++ sq ++ " deleted successfully"⟩, ⟨[]⟩)) :=
  ⟨by decide, by decide, drop_missing_schema_ok ⟨[]⟩ "ghost" (by decide) (by decide)⟩

/-! ## Helper lemmas for schema creation -/

/-- Every application table is present after `ensureTables`. -/
theorem mem_ensureTables (ts : List String) (a : String) (ha : a ∈ appTables) :
    a ∈ ensureTables ts := by
  unfold ensureTables
  by_cases h : a ∈ ts
  · exact List.mem_append_left _ h
  · exact List.mem_append_right _ (List.mem_filter.mpr ⟨ha, by simpa using h⟩)

/-- A second `ensureTables` adds nothing. -/
theorem ensureTables_idem (ts : List String) :
    ensureTables (ensureTables ts) = ensureTables ts := by
  have hnil : appTables.filter (fun a => !(ensureTables ts).contains a) = [] := by
    refine List.filter_eq_nil_iff.mpr ?_
    intro a ha
    simp [mem_ensureTables ts a ha]
  calc ensureTables (ensureTables ts)
      = ensureTables ts ++ appTables.filter (fun a => !(ensureTables ts).contains a) := rfl
    _ = ensureTables ts := by rw [hnil, List.append_nil]

/-- Schema-name-preserving maps keep `any` over names. -/
theorem any_name_map (l : List SchemaRec) (f : SchemaRec → SchemaRec)
    (hf : ∀ s, (f s).name = s.name) (n : String) :
    (l.map f).any (fun s => s.name == n) = l.any (fun s => s.name == n) := by
  induction l with
  | nil => rfl
  | cons s rest ih => simp [hf, ih]

/-- Schema-name-preserving maps keep the length of a by-name filter. -/
theorem filter_name_map (l : List SchemaRec) (f : SchemaRec → SchemaRec)
    (hf : ∀ s, (f s).name = s.name) (m : String) :
    ((l.map f).filter (fun s => s.name == m)).length
      = (l.filter (fun s => s.name == m)).length := by
  induction l with
  | nil => rfl
  | cons s rest ih =>
    by_cases h : s.name == m <;> simp [List.filter_cons, hf, h, ih]

/-- On a catalog with unique names, a present name is matched by exactly one
schema. -/
theorem filter_name_length_one (l : List SchemaRec) (n : String)
    (hnd : (l.map SchemaRec.name).Nodup) (hmem : l.any (fun s => s.name == n) = true) :
    (l.filter (fun s => s.name == n)).length = 1 := by
  induction l with
  | nil => simp at hmem
  | cons s rest ih =>
    simp only [List.map_cons, List.nodup_cons] at hnd
    obtain ⟨hni, hnd2⟩ := hnd
    by_cases h : s.name == n
    · have hn : s.name = n := by simpa using h
      have hrest : rest.filter (fun s2 => s2.name == n) = [] := by
        refine List.filter_eq_nil_iff.mpr ?_
        intro x hx hxn
        have hxn2 : x.name = n := by simpa using hxn
        exact hni (List.mem_map.mpr ⟨x, hx, by rw [hxn2, hn]⟩)
      simp [List.filter_cons, h, hrest]
    · have hmem2 : rest.any (fun s2 => s2.name == n) = true := by
        rw [List.any_cons, Bool.or_eq_true] at hmem
        rcases hmem with h1 | h2
        · exact absurd h1 h
        · exact h2
      simp [List.filter_cons, h, ih hnd2 hmem2]

/-- `execCreateTables` keeps the catalog's names. -/
theorem map_name_execCreateTables (db : DbState) (n : String) :
    (execCreateTables db n).schemas.map SchemaRec.name
      = db.schemas.map SchemaRec.name := by
  show (db.schemas.map _).map SchemaRec.name = _
  rw [List.map_map]
  refine List.map_congr_left ?_
  intro s _
  by_cases h : s.name = n <;> simp [h]

/-- `execCreateTables` does not change which names exist. -/
theorem hasSchema_execCreateTables (db : DbState) (n m : String) :
    hasSchema (execCreateTables db n) m = hasSchema db m := by
  unfold hasSchema execCreateTables
  exact any_name_map _ _ (fun s => by by_cases h : s.name = n <;> simp [h]) m

/-- After `execCreateSchema db n` the name `n` exists. -/
theorem hasSchema_execCreateSchema_self (db : DbState) (n : String) :
    hasSchema (execCreateSchema db n) n = true := by
  unfold execCreateSchema
  by_cases h : hasSchema db n
  · rw [if_pos h]
    exact h
  · rw [if_neg h]
    simp [hasSchema]

/-- `CREATE SCHEMA IF NOT EXISTS` is a no-op when the schema exists. -/
theorem execCreateSchema_of_hasSchema (db : DbState) (n : String)
    (h : hasSchema db n = true) : execCreateSchema db n = db := by
  simp [execCreateSchema, h]

/-- `execCreateSchema` keeps the names unique (it appends a fresh name only
when that name is absent). -/
theorem nodup_names_execCreateSchema (db : DbState) (n : String)
    (hnd : (db.schemas.map SchemaRec.name).Nodup) :
    ((execCreateSchema db n).schemas.map SchemaRec.name).Nodup := by
  unfold execCreateSchema
  by_cases h : hasSchema db n
  · rw [if_pos h]
    exact hnd
  · rw [if_neg h, List.map_append, List.map_cons, List.map_nil]
    refine List.Nodup.append hnd (List.nodup_singleton n) ?_
    intro a ha hb
    have han : a = n := by simpa using hb
    subst han
    obtain ⟨s, hs, hsn⟩ := List.mem_map.mp ha
    have hany : db.schemas.any (fun s2 => s2.name == a) = true :=
      List.any_eq_true.mpr ⟨s, hs, by simp [hsn]⟩
    exact h (by rw [hasSchema]; exact hany)

/-- Re-running the table creation changes nothing. -/
theorem execCreateTables_idem (db : DbState) (n : String) :
    execCreateTables (execCreateTables db n) n = execCreateTables db n := by
  unfold execCreateTables
  congr 1
  rw [List.map_map]
  refine List.map_congr_left ?_
  intro s _
  by_cases h : s.name = n <;> simp [h, ensureTables_idem]

/-- Every schema named `n` after `execCreateTables db n` holds the full
application table set. -/
theorem tables_complete_execCreateTables (db : DbState) (n : String) :
    ∀ s ∈ (execCreateTables db n).schemas, s.name = n → ∀ a ∈ appTables, a ∈ s.tables := by
  intro s hs hname a ha
  unfold execCreateTables at hs
  simp only [List.mem_map] at hs
  obtain ⟨s0, hs0, heq⟩ := hs
  by_cases h : s0.name == n
  · rw [if_pos h] at heq
    rw [← heq]
    exact mem_ensureTables s0.tables a ha
  · rw [if_neg h] at heq
    rw [← heq] at hname
    exact absurd (by simp [hname] : (s0.name == n) = true) h

/-- Claim C8: for an identifier passing the code's format check, creating the
namespace twice raises no error, the second call leaves the state of the
first unchanged, and — on a catalog with unique schema names, the engine's
own invariant — the result holds exactly one schema named `tenant_t`, with
every application table present in it. -/
theorem create_schema_idempotent (db : DbState) (t : String)
    (hval : tenantFormatOk t = true)
    (hnd : (db.schemas.map SchemaRec.name).Nodup) :
    (create_tenant_schema db t).1 = Except.ok () ∧
    (create_tenant_schema (create_tenant_schema db t).2.1 t).1 = Except.ok () ∧
    (create_tenant_schema (create_tenant_schema db t).2.1 t).2.1
      = (create_tenant_schema db t).2.1 ∧
    ((create_tenant_schema db t).2.1.schemas.filter
        (fun s => s.name == "tenant_" ++ t)).length = 1 ∧
    ∀ s ∈ (create_tenant_schema db t).2.1.schemas,
      s.name = "tenant_" ++ t → ∀ a ∈ appTables, a ∈ s.tables := by
  have hc : ∀ d : DbState, create_tenant_schema d t
      = (Except.ok (),
         execCreateTables (execCreateSchema d ("tenant_" ++ t)) ("tenant_" ++ t),
         [SqlCmd.createSchemaIfAbsent ("tenant_" ++ t),
          SqlCmd.setSearchPath ("tenant_" ++ t), SqlCmd.createAllTables]) := by
    intro d
    simp [create_tenant_schema, hval]
  have hdb2 : (create_tenant_schema db t).2.1
      = execCreateTables (execCreateSchema db ("tenant_" ++ t)) ("tenant_" ++ t) := by
    rw [hc db]
  have hhas2 : hasSchema (create_tenant_schema db t).2.1 ("tenant_" ++ t) = true := by
    rw [hdb2, hasSchema_execCreateTables]
    exact hasSchema_execCreateSchema_self db _
  have hsecond : (create_tenant_schema (create_tenant_schema db t).2.1 t).2.1
      = (create_tenant_schema db t).2.1 := by
    rw [hc ((create_tenant_schema db t).2.1)]
    show execCreateTables (execCreateSchema _ _) _ = _
    rw [execCreateSchema_of_hasSchema _ _ hhas2, hdb2, execCreateTables_idem]
  refine ⟨by rw [hc db], by rw [hc ((create_tenant_schema db t).2.1)], hsecond, ?_, ?_⟩
  · rw [hdb2]
    have h1 : ((execCreateTables (execCreateSchema db ("tenant_" ++ t))
          ("tenant_" ++ t)).schemas.filter (fun s => s.name == "tenant_" ++ t)).length
        = ((execCreateSchema db ("tenant_" ++ t)).schemas.filter
            (fun s => s.name == "tenant_" ++ t)).length := by
      unfold execCreateTables
      exact filter_name_map _ _
        (fun s => by by_cases h : s.name = "tenant_" ++ t <;> simp [h]) _
    rw [h1]
    refine filter_name_length_one _ _ (nodup_names_execCreateSchema db _ hnd) ?_
    have hself := hasSchema_execCreateSchema_self db ("tenant_" ++ t)
    rwa [hasSchema] at hself
  · rw [hdb2]
    exact tables_complete_execCreateTables _ _

/-- Witness for C8 on a catalog holding only a `public` schema. -/
theorem create_schema_idempotent_witness :
    tenantFormatOk "acme" = true ∧
    (((⟨[⟨"public", ["account"]⟩]⟩ : DbState).schemas.map SchemaRec.name).Nodup) ∧
    ((create_tenant_schema ⟨[⟨"public", ["account"]⟩]⟩ "acme").1 = Except.ok () ∧
     (create_tenant_schema
        (create_tenant_schema ⟨[⟨"public", ["account"]⟩]⟩ "acme").2.1 "acme").1
        = Except.ok () ∧
     (create_tenant_schema
        (create_tenant_schema ⟨[⟨"public", ["account"]⟩]⟩ "acme").2.1 "acme").2.1
        = (create_tenant_schema ⟨[⟨"public", ["account"]⟩]⟩ "acme").2.1 ∧
     ((create_tenant_schema ⟨[⟨"public", ["account"]⟩]⟩ "acme").2.1.schemas.filter
        (fun s => s.name == "tenant_" ++ "acme")).length = 1 ∧
     ∀ s ∈ (create_tenant_schema ⟨[⟨"public", ["account"]⟩]⟩ "acme").2.1.schemas,
       s.name = "tenant_" ++ "acme" → ∀ a ∈ appTables, a ∈ s.tables) :=
  ⟨by decide, by decide,
   create_schema_idempotent ⟨[⟨"public", ["account"]⟩]⟩ "acme" (by decide) (by decide)⟩

/-! ## Helper lemmas for the namespace listing -/

/-- `stripTenantAll` removes a leading occurrence of the pattern. -/
theorem stripTenantAll_pat (l : List Char) :
    stripTenantAll (tenantPat ++ l) = stripTenantAll l := rfl

/-- A cons that does not start the pattern passes through `stripTenantAll`. -/
theorem stripTenantAll_cons_of_not_prefixOf (c : Char) (rest : List Char)
    (h : tenantPat.isPrefixOf (c :: rest) = false) :
    stripTenantAll (c :: rest) = c :: stripTenantAll rest := by
  rw [stripTenantAll.eq_def]
  split
  · rename_i rest2 heq
    rw [show c :: rest = 't' :: 'e' :: 'n' :: 'a' :: 'n' :: 't' :: '_' :: rest2 from heq] at h
    simp [tenantPat, List.isPrefixOf] at h
  · rename_i x1 c2 rest2 hno heq
    injection heq with h1 h2
    subst h1
    subst h2
    rfl
  · rename_i x1 heq
    simp at heq

/-- A string with no occurrence of the pattern passes through unchanged. -/
theorem stripTenantAll_of_not_contains (l : List Char)
    (h : containsSeq tenantPat l = false) : stripTenantAll l = l := by
  induction l with
  | nil => rfl
  | cons c rest ih =>
    rw [containsSeq, Bool.or_eq_false_iff] at h
    obtain ⟨h1, h2⟩ := h
    rw [stripTenantAll_cons_of_not_prefixOf c rest h1, ih h2]

/-- The character data of a namespace name is the pattern followed by the
identifier. -/
theorem data_tenant_append (t : String) :
    ("tenant_" ++ t).data = tenantPat ++ t.data := by
  rw [String.data_append]
  rfl

/-- Every namespace name `tenant_` plus identifier matches the catalog
query's LIKE pattern. -/
theorem likeTenantPat_tenant (t : String) :
    likeTenantPat ("tenant_" ++ t) = true := by
  rw [likeTenantPat, data_tenant_append, Bool.and_eq_true]
  refine ⟨rfl, ?_⟩
  rw [decide_eq_true_eq, List.length_append]
  have h7 : tenantPat.length = 7 := rfl
  omega

/-- Filtering out one schema name commutes with taking the names. -/
theorem map_name_filter_bne (l : List SchemaRec) (n : String) :
    (l.filter (fun s => s.name != n)).map SchemaRec.name
      = (l.map SchemaRec.name).filter (fun m => m != n) := by
  induction l with
  | nil => rfl
  | cons s rest ih =>
    by_cases h : s.name = n <;> simp [List.filter_cons, h, ih]

/-- The namespace listing depends only on the catalog's names. -/
theorem list_tenant_schemas_eq_names (d1 d2 : DbState)
    (h : d1.schemas.map SchemaRec.name = d2.schemas.map SchemaRec.name) :
    list_tenant_schemas d1 = list_tenant_schemas d2 := by
  rw [list_tenant_schemas, list_tenant_schemas, h]

/-- Claim C5 counterexample: `tenant_x` passes the code's format check, but
after creating its namespace `tenant_tenant_x` the listing strips every
occurrence of `tenant_` (Python string replacement) and reports `x`; the
created identifier `tenant_x` never appears. -/
theorem nested_id_mangled_in_listing :
    tenantFormatOk "tenant_x" = true ∧
    list_tenant_schemas (create_tenant_schema ⟨[]⟩ "tenant_x").2.1 = ["x"] ∧
    "tenant_x" ∉ list_tenant_schemas (create_tenant_schema ⟨[]⟩ "tenant_x").2.1 :=
  ⟨by decide, by decide, by decide⟩

/-- Claim C5 (amended): round-trip for an identifier that passes the format
check, does not itself contain the character sequence `tenant_`, and is not
already reported by the listing: after `create_tenant_schema` the listing
contains it, and after `drop_tenant_schema` it no longer does. -/
theorem create_list_drop_roundtrip (db : DbState) (t : String)
    (hval : tenantFormatOk t = true)
    (hclean : containsSeq tenantPat t.data = false)
    (hnew : t ∉ list_tenant_schemas db) :
    t ∈ list_tenant_schemas (create_tenant_schema db t).2.1 ∧
    t ∉ list_tenant_schemas
        (drop_tenant_schema (create_tenant_schema db t).2.1 t true).2.1 := by
  have hstript : String.mk (stripTenantAll ("tenant_" ++ t).data) = t := by
    rw [data_tenant_append, stripTenantAll_pat, stripTenantAll_of_not_contains _ hclean]
  have hlike : likeTenantPat ("tenant_" ++ t) = true := likeTenantPat_tenant t
  have habs : hasSchema db ("tenant_" ++ t) = false := by
    rw [Bool.eq_false_iff]
    intro hhas
    apply hnew
    rw [hasSchema, List.any_eq_true] at hhas
    obtain ⟨s, hs, hsn⟩ := hhas
    have hsn2 : s.name = "tenant_" ++ t := by simpa using hsn
    have hmm : ("tenant_" ++ t) ∈ db.schemas.map SchemaRec.name :=
      List.mem_map.mpr ⟨s, hs, hsn2⟩
    rw [list_tenant_schemas]
    exact List.mem_map.mpr ⟨"tenant_" ++ t, List.mem_filter.mpr ⟨hmm, hlike⟩, hstript⟩
  have hnames2 : (create_tenant_schema db t).2.1.schemas.map SchemaRec.name
      = db.schemas.map SchemaRec.name ++ ["tenant_" ++ t] := by
    have h1 : (create_tenant_schema db t).2.1
        = execCreateTables (execCreateSchema db ("tenant_" ++ t)) ("tenant_" ++ t) := by
      simp [create_tenant_schema, hval]
    rw [h1, map_name_execCreateTables, execCreateSchema, if_neg (by simp [habs])]
    show (db.schemas ++ [(⟨"tenant_" ++ t, []⟩ : SchemaRec)]).map SchemaRec.name = _
    rw [List.map_append]
    rfl
  have hsingle : (["tenant_" ++ t].filter likeTenantPat).map
      (fun n => String.mk (stripTenantAll n.data)) = [t] := by
    rw [List.filter_cons, if_pos hlike, List.filter_nil, List.map_cons, List.map_nil,
      hstript]
  have hlist2 : list_tenant_schemas (create_tenant_schema db t).2.1
      = list_tenant_schemas db ++ [t] := by
    rw [list_tenant_schemas, hnames2, List.filter_append, List.map_append, hsingle]
    rfl
  have hdropnames : (drop_tenant_schema (create_tenant_schema db t).2.1 t
        true).2.1.schemas.map SchemaRec.name = db.schemas.map SchemaRec.name := by
    have h2 : (drop_tenant_schema (create_tenant_schema db t).2.1 t true).2.1
        = ⟨(create_tenant_schema db t).2.1.schemas.filter
            (fun s => s.name != "tenant_" ++ t)⟩ := by
      simp [drop_tenant_schema, hval]
    rw [h2]
    show ((create_tenant_schema db t).2.1.schemas.filter
        (fun s => s.name != "tenant_" ++ t)).map SchemaRec.name = _
    rw [map_name_filter_bne, hnames2, List.filter_append]
    have hkeep : (db.schemas.map SchemaRec.name).filter (fun m => m != "tenant_" ++ t)
        = db.schemas.map SchemaRec.name := by
      refine List.filter_eq_self.mpr ?_
      intro m hm
      rw [bne_iff_ne, ne_eq]
      intro heq
      obtain ⟨s, hs, hsn⟩ := List.mem_map.mp hm
      rw [Bool.eq_false_iff] at habs
      exact habs (by
        rw [hasSchema]
        exact List.any_eq_true.mpr ⟨s, hs, by simp [hsn, heq]⟩)
    rw [hkeep]
    simp
  constructor
  · rw [hlist2]
    exact List.mem_append_right _ (List.mem_singleton.mpr rfl)
  · rw [list_tenant_schemas_eq_names _ db hdropnames]
    exact hnew

/-- Witness for amended C5 on an empty catalog. -/
theorem create_list_drop_roundtrip_witness :
    tenantFormatOk "acme" = true ∧
    containsSeq tenantPat "acme".data = false ∧
    "acme" ∉ list_tenant_schemas (⟨[]⟩ : DbState) ∧
    ("acme" ∈ list_tenant_schemas (create_tenant_schema ⟨[]⟩ "acme").2.1 ∧
     "acme" ∉ list_tenant_schemas
        (drop_tenant_schema (create_tenant_schema ⟨[]⟩ "acme").2.1 "acme" true).2.1) :=
  ⟨by decide, by decide, by decide,
   create_list_drop_roundtrip ⟨[]⟩ "acme" (by decide) (by decide) (by decide)⟩

end Tenant

